import Mathlib

/-!
Verification of the telemetry alignment and comparison core of the
Mini-F1-Telemetry-Dashboard repository (src/app.py), shallowly embedded
over the rationals.  Real numbers of the Python code are modelled as ℚ;
the float NaN (and pandas NaT) is modelled as `none` of an `Option`
type at the places where the code can produce it.
-/

namespace F1

/-- Decidable equality for `Except`, so that concrete runs of the
fallible operations can be checked by `decide`. -/
instance exceptDecEq {ε α : Type} [DecidableEq ε] [DecidableEq α] :
    DecidableEq (Except ε α) := fun x y =>
  match x, y with
  | Except.error a, Except.error b =>
      if h : a = b then isTrue (h ▸ rfl)
      else isFalse (fun hc => h (Except.error.inj hc))
  | Except.error _, Except.ok _ => isFalse (fun hc => Except.noConfusion hc)
  | Except.ok _, Except.error _ => isFalse (fun hc => Except.noConfusion hc)
  | Except.ok a, Except.ok b =>
      if h : a = b then isTrue (h ▸ rfl)
      else isFalse (fun hc => h (Except.ok.inj hc))

/-- A telemetry table, the relevant columns of the dataframe returned by
`F1Service.fastest_lap_telemetry` (src/app.py lines 26-34): the
`Distance` and `Speed` columns always exist; the `SessionTime` column is
optional (line 29-31 keeps it only when present).  In the application the
three columns always have the same length, which theorems take as a
hypothesis where needed. -/
structure Telemetry where
  distances : List ℚ
  speeds : List ℚ
  sessionTimes : Option (List ℚ)
deriving DecidableEq

/-- Minimum of a pandas series of the values in `l` : `NaN` (here `none`)
when the series is empty. -/
def listMin (l : List ℚ) : Option ℚ := l.min?

/-- Maximum of a pandas series of the values in `l` : `NaN` (here `none`)
when the series is empty. -/
def listMax (l : List ℚ) : Option ℚ := l.max?

/-- Python `max(a, b)` on floats: returns `b` if `b > a` else `a`.  Since
every comparison with NaN is false, `max(nan, y) = nan` and
`max(x, nan) = x`; `none` plays NaN. -/
def pyMax (a b : Option ℚ) : Option ℚ :=
  match a, b with
  | none, _ => none
  | some x, none => some x
  | some x, some y => some (if x < y then y else x)

/-- Python `min(a, b)` on floats: returns `b` if `b < a` else `a`, with
`none` playing NaN as in `pyMax`. -/
def pyMin (a b : Option ℚ) : Option ℚ :=
  match a, b with
  | none, _ => none
  | some x, none => some x
  | some x, some y => some (if y < x then y else x)

/-- Python `a <= b` on floats where `none` plays NaN: any comparison
involving NaN is false. -/
def leOpt (a b : Option ℚ) : Bool :=
  match a, b with
  | some x, some y => decide (x ≤ y)
  | _, _ => false

/-- Value `dmin` of src/app.py line 40:
`max(float(tel1["Distance"].min()), float(tel2["Distance"].min()))`. -/
def dmin (t1 t2 : Telemetry) : Option ℚ :=
  pyMax (listMin t1.distances) (listMin t2.distances)

/-- Value `dmax` of src/app.py line 41:
`min(float(tel1["Distance"].max()), float(tel2["Distance"].max()))`. -/
def dmax (t1 t2 : Telemetry) : Option ℚ :=
  pyMin (listMax t1.distances) (listMax t2.distances)

/-- The numpy call `np.linspace(a, b, n)`: `n` points `a + (b-a)*i/(n-1)`.
In exact rational arithmetic the last point equals `b`, which numpy also
guarantees for floats by assigning the endpoint explicitly. -/
def linspace (a b : ℚ) (n : ℕ) : List ℚ :=
  (List.range n).map (fun i : ℕ => a + (b - a) * (i : ℚ) / ((n : ℚ) - 1))

/-- The grid of src/app.py line 45 when an endpoint is NaN (an empty
telemetry series): numpy produces an all-NaN array.  The placeholder
values chosen here are never observable: whenever an endpoint is `none`
one of the distance lists is empty and `compare_fastest` ends in the
interpolation error before any grid value is read (see
`compare_fastest_error_of_empty`). -/
def linspaceO (a b : Option ℚ) (n : ℕ) : List ℚ :=
  match a, b with
  | some x, some y => linspace x y n
  | _, _ => List.replicate n 0

/-- The distance grid of src/app.py lines 42-45: the raw `Distance`
column of the first telemetry when `dmax <= dmin`, otherwise
`np.linspace(dmin, dmax, 1200)`. -/
def alignGrid (t1 t2 : Telemetry) : List ℚ :=
  if leOpt (dmax t1 t2) (dmin t1 t2) then t1.distances
  else linspaceO (dmin t1 t2) (dmax t1 t2) 1200

/-- One point of `np.interp(x, xp, fp)` with the sample points `xp`
zipped with the values `fp`: the C implementation finds the largest
index `j` with `xp[j] <= x`, clamps to `fp[0]` (resp. the last `fp`)
when `x` is below `xp[0]` (resp. when `j` is the last index), returns
`fp[j]` when `x == xp[j]`, and otherwise evaluates
`(fp[j+1]-fp[j])/(xp[j+1]-xp[j]) * (x - xp[j]) + fp[j]`. -/
def interp (x : ℚ) : List (ℚ × ℚ) → ℚ
  | [] => 0
  | [p] => p.2
  | p :: q :: rest =>
      if x < p.1 then p.2
      else if x < q.1 then
        if x = p.1 then p.2
        else (q.2 - p.2) / (q.1 - p.1) * (x - p.1) + p.2
      else interp x (q :: rest)

/-- The numpy call `np.interp(x, xp, fp)` on whole arrays, with the two
`ValueError` checks of the C implementation in their source order: an
empty `xp` is rejected first, then a length mismatch between `fp` and
`xp`. -/
def np_interp (x xp fp : List ℚ) : Except String (List ℚ) :=
  if xp.length = 0 then Except.error "array of sample points is empty"
  else if fp.length ≠ xp.length then
    Except.error "fp and xp are not of the same length."
  else Except.ok (x.map (fun q => interp q (xp.zip fp)))

/-- The comparison dataframe built at src/app.py line 49: the shared
distance grid and the two interpolated speed columns. -/
structure Comparison where
  distance : List ℚ
  speed1 : List ℚ
  speed2 : List ℚ
deriving DecidableEq

/-- The core of `F1Service.compare_fastest` (src/app.py lines 40-50):
build the grid, interpolate both speed columns against it, and assemble
the comparison table.  A `ValueError` escaping from `np.interp` is the
`Except.error` case. -/
def compare_fastest (t1 t2 : Telemetry) : Except String Comparison :=
  let dist := alignGrid t1 t2
  match np_interp dist t1.distances t1.speeds with
  | Except.error e => Except.error e
  | Except.ok s1 =>
    match np_interp dist t2.distances t2.speeds with
    | Except.error e => Except.error e
    | Except.ok s2 => Except.ok ⟨dist, s1, s2⟩

/-- The delta-time block of src/app.py lines 176-183: only when both
telemetries carry a `SessionTime` column, interpolate each column (in
seconds) onto the comparison grid with `np.interp` and subtract
pointwise.  `none` is the absent case (the guard on line 176 fails). -/
def delta_time (t1 t2 : Telemetry) (grid : List ℚ) :
    Option (Except String (List ℚ)) :=
  match t1.sessionTimes, t2.sessionTimes with
  | some st1, some st2 =>
      some (match np_interp grid t1.distances st1 with
        | Except.error e => Except.error e
        | Except.ok a =>
          match np_interp grid t2.distances st2 with
          | Except.error e => Except.error e
          | Except.ok b => Except.ok (List.zipWith (fun u v => u - v) a b))
  | _, _ => none

/-- The scalar lap-time delta of src/app.py lines 128-135: lap times are
timedeltas in seconds, an absent lap time is NaT (`none`); subtraction
propagates NaT, and `total_seconds()` of NaT is NaN (`none`). -/
def delta_seconds (l1 l2 : Option ℚ) : Option ℚ :=
  match l1, l2 with
  | some a, some b => some (a - b)
  | _, _ => none

/-- Zero-pad the string `s` with leading `0` characters to width `w`. -/
def padZero (w : ℕ) (s : String) : String :=
  String.mk (List.replicate (w - s.data.length) '0' ++ s.data)

/-- Decimal rendering of a value already scaled to thousandths: the
integral part zero-padded to width `w`, then a dot, then exactly three
fractional digits, as the `%.3f` conversions of the code produce. -/
def fmtFixed (w n : ℕ) : String :=
  padZero w (toString (n / 1000)) ++ "." ++ padZero 3 (toString (n % 1000))

/-- Python formatting `f"{q:+.3f}"` of a float (here after rounding the
rational to three decimals); formatting NaN this way yields the string
`+nan`. -/
def fmtSigned3 (q : Option ℚ) : String :=
  match q with
  | none => "+nan"
  | some x =>
      (if x < 0 then "-" else "+") ++
        fmtFixed 0 (Int.floor (|x| * 1000 + 1/2)).toNat

/-- The KPI string of src/app.py line 137: `f"{delta_seconds:+.3f}s"`. -/
def delta_str (l1 l2 : Option ℚ) : String :=
  fmtSigned3 (delta_seconds l1 l2) ++ "s"

/-- Line 57 of src/app.py: `minutes = int(total_seconds // 60)` — Python
floor division of floats, then truncation of an already integral float,
hence the floor. -/
def lap_minutes (t : ℚ) : ℤ := Int.floor (t / 60)

/-- Line 58 of src/app.py: `seconds = total_seconds % 60` — the Python
float modulo with a positive modulus, `t - 60 * (t // 60)`, always in
`[0, 60)`. -/
def lap_seconds (t : ℚ) : ℚ := t - 60 * lap_minutes t

/-- Python formatting `f"{s:06.3f}"` for the value `s ∈ [0, 60)` built
by `lap_seconds`: round to three decimals and zero-pad the integral part
to two digits (total field width six). -/
def fmtSec (s : ℚ) : String :=
  fmtFixed 2 (Int.floor (s * 1000 + 1/2)).toNat

/-- `F1Service.format_laptime` (src/app.py lines 52-59): `"N/A"` for an
absent (NaT/NaN) lap time, otherwise `f"{minutes}:{seconds:06.3f}"`. -/
def format_laptime (lap_time : Option ℚ) : String :=
  match lap_time with
  | none => "N/A"
  | some t => toString (lap_minutes t) ++ ":" ++ fmtSec (lap_seconds t)

/-- Distances of a sample list are non-decreasing (the spec invariant on
a Lap: duplicates permitted). -/
def DistSorted (pts : List (ℚ × ℚ)) : Prop :=
  List.Pairwise (fun p q => p.1 ≤ q.1) pts

/-- Distances of a sample list are strictly increasing. -/
def DistStrict (pts : List (ℚ × ℚ)) : Prop :=
  List.Pairwise (fun p q => p.1 < q.1) pts

instance distSortedDec (pts : List (ℚ × ℚ)) : Decidable (DistSorted pts) :=
  inferInstanceAs (Decidable (List.Pairwise _ pts))

instance distStrictDec (pts : List (ℚ × ℚ)) : Decidable (DistStrict pts) :=
  inferInstanceAs (Decidable (List.Pairwise _ pts))

theorem DistStrict.toSorted {pts : List (ℚ × ℚ)} (h : DistStrict pts) :
    DistSorted pts :=
  h.imp (fun hpq => le_of_lt hpq)

theorem DistSorted.head_le {p : ℚ × ℚ} {tl : List (ℚ × ℚ)}
    (hs : DistSorted (p :: tl)) {q : ℚ × ℚ} (hq : q ∈ p :: tl) :
    p.1 ≤ q.1 := by
  rcases List.mem_cons.mp hq with h | h
  · exact le_of_eq (by rw [h])
  · exact (List.pairwise_cons.mp hs).1 q h

theorem interp_head_lt (p : ℚ × ℚ) (rest : List (ℚ × ℚ)) (x : ℚ)
    (h : x < p.1) : interp x (p :: rest) = p.2 := by
  cases rest with
  | nil => rfl
  | cons q tl => simp [interp, h]

theorem interp_cons_cons (p q : ℚ × ℚ) (rest : List (ℚ × ℚ)) (x : ℚ)
    (h1 : ¬ x < p.1) (h2 : ¬ x < q.1) :
    interp x (p :: q :: rest) = interp x (q :: rest) := by
  simp [interp, h1, h2]

theorem interp_right_clamp :
    ∀ (pts : List (ℚ × ℚ)), DistSorted pts → ∀ (hne : pts ≠ []) (x : ℚ),
      (pts.getLast hne).1 < x → interp x pts = (pts.getLast hne).2 := by
  intro pts
  induction pts with
  | nil => intro _ hne; exact absurd rfl hne
  | cons p tl ih =>
    intro hs hne x h
    cases tl with
    | nil => rfl
    | cons q tl2 =>
      have htl : q :: tl2 ≠ [] := by simp
      have hlast : (p :: q :: tl2).getLast hne = (q :: tl2).getLast htl :=
        List.getLast_cons htl
      rw [hlast] at h ⊢
      have hq : q.1 ≤ ((q :: tl2).getLast htl).1 :=
        DistSorted.head_le hs.of_cons (List.getLast_mem htl)
      have hp : p.1 ≤ ((q :: tl2).getLast htl).1 :=
        DistSorted.head_le hs (List.mem_cons_of_mem p (List.getLast_mem htl))
      rw [interp_cons_cons p q tl2 x (not_lt.mpr (le_of_lt (lt_of_le_of_lt hp h)))
        (not_lt.mpr (le_of_lt (lt_of_le_of_lt hq h)))]
      exact ih hs.of_cons htl x h

theorem interp_segment :
    ∀ (pts : List (ℚ × ℚ)), DistSorted pts →
      ∀ (i : ℕ) (hi : i + 1 < pts.length) (x : ℚ),
      pts[i].1 < x → x < pts[i + 1].1 →
      interp x pts =
        (pts[i + 1].2 - pts[i].2) /
          (pts[i + 1].1 - pts[i].1) *
          (x - pts[i].1) +
          pts[i].2 := by
  intro pts
  induction pts with
  | nil => intro _ i hi; simp at hi
  | cons p tl ih =>
    intro hs i hi x
    cases i with
    | zero =>
      cases tl with
      | nil => simp at hi
      | cons q tl2 =>
        intro hl hr
        have hxp : ¬ x < p.1 := not_lt.mpr (le_of_lt hl)
        have hne : x ≠ p.1 := ne_of_gt hl
        simp only [List.getElem_cons_zero, List.getElem_cons_succ] at hl hr ⊢
        simp [interp, hxp, hr, hne]
    | succ j =>
      cases tl with
      | nil => simp at hi
      | cons q tl2 =>
        intro hl hr
        simp only [List.getElem_cons_succ] at hl hr ⊢
        have hj : j < (q :: tl2).length := by
          simpa using Nat.lt_of_succ_lt (Nat.lt_of_succ_lt_succ hi)
        have hmem : (q :: tl2)[j] ∈ q :: tl2 := List.getElem_mem hj
        have hp : p.1 ≤ ((q :: tl2)[j]).1 :=
          DistSorted.head_le hs (List.mem_cons_of_mem p hmem)
        have hq : q.1 ≤ ((q :: tl2)[j]).1 :=
          DistSorted.head_le hs.of_cons hmem
        rw [interp_cons_cons p q tl2 x (not_lt.mpr (le_of_lt (lt_of_le_of_lt hp hl)))
          (not_lt.mpr (le_of_lt (lt_of_le_of_lt hq hl)))]
        exact ih hs.of_cons j (by simpa using Nat.lt_of_succ_lt_succ hi) x hl hr

theorem interp_at_sample :
    ∀ (pts : List (ℚ × ℚ)), DistStrict pts → ∀ (i : ℕ) (hi : i < pts.length),
      interp pts[i].1 pts = pts[i].2 := by
  intro pts
  induction pts with
  | nil => intro _ i hi; simp at hi
  | cons p tl ih =>
    intro hs i hi
    cases i with
    | zero =>
      cases tl with
      | nil => rfl
      | cons q tl2 =>
        have hpq : p.1 < q.1 :=
          (List.pairwise_cons.mp hs).1 q (List.mem_cons_self q tl2)
        simp [interp, hpq]
    | succ j =>
      cases tl with
      | nil => simp at hi
      | cons q tl2 =>
        simp only [List.getElem_cons_succ]
        have hj : j < (q :: tl2).length := by simpa using Nat.lt_of_succ_lt_succ hi
        have hmem : (q :: tl2)[j] ∈ q :: tl2 := List.getElem_mem hj
        have hp : p.1 ≤ ((q :: tl2)[j]).1 :=
          DistSorted.head_le hs.toSorted (List.mem_cons_of_mem p hmem)
        have hq : q.1 ≤ ((q :: tl2)[j]).1 :=
          DistSorted.head_le hs.toSorted.of_cons hmem
        rw [interp_cons_cons p q tl2 _ (not_lt.mpr hp) (not_lt.mpr hq)]
        exact ih hs.of_cons j hj

theorem np_interp_ok_of (x xp fp : List ℚ) (hne : xp ≠ [])
    (hlen : fp.length = xp.length) :
    np_interp x xp fp = Except.ok (x.map (fun q => interp q (xp.zip fp))) := by
  simp [np_interp, List.length_eq_zero, hne, hlen]

theorem np_interp_ok {x xp fp r : List ℚ}
    (h : np_interp x xp fp = Except.ok r) :
    r = x.map (fun q => interp q (xp.zip fp)) := by
  unfold np_interp at h
  split at h
  · exact absurd h (by simp)
  · split at h
    · exact absurd h (by simp)
    · exact (Except.ok.inj h).symm

theorem compare_fastest_ok {t1 t2 : Telemetry} {c : Comparison}
    (h : compare_fastest t1 t2 = Except.ok c) :
    c = ⟨alignGrid t1 t2,
      (alignGrid t1 t2).map (fun q => interp q (t1.distances.zip t1.speeds)),
      (alignGrid t1 t2).map (fun q => interp q (t2.distances.zip t2.speeds))⟩ := by
  simp only [compare_fastest] at h
  cases h1 : np_interp (alignGrid t1 t2) t1.distances t1.speeds with
  | error e => rw [h1] at h; exact absurd h (by simp)
  | ok s1 =>
    rw [h1] at h
    cases h2 : np_interp (alignGrid t1 t2) t2.distances t2.speeds with
    | error e => rw [h2] at h; exact absurd h (by simp)
    | ok s2 =>
      rw [h2] at h
      have hc := (Except.ok.inj h).symm
      have hs1 := np_interp_ok h1
      have hs2 := np_interp_ok h2
      rw [hc, hs1, hs2]

theorem compare_fastest_error_of_empty (t1 t2 : Telemetry)
    (hl1 : t1.speeds.length = t1.distances.length)
    (h : t1.distances = [] ∨ t2.distances = []) :
    compare_fastest t1 t2 = Except.error "array of sample points is empty" := by
  by_cases h1 : t1.distances = []
  · simp [compare_fastest, np_interp, h1]
  · have h2 : t2.distances = [] := h.resolve_left h1
    rw [compare_fastest, np_interp_ok_of _ _ _ h1 hl1]
    simp [np_interp, h2]

theorem zipWith_sub_map (f g : ℚ → ℚ) (l : List ℚ) :
    List.zipWith (fun u v => u - v) (l.map f) (l.map g) =
      l.map (fun x => f x - g x) := by
  rw [List.zipWith_map, List.zipWith_same]

theorem distStrict_zip (xp fp : List ℚ)
    (h : List.Pairwise (fun u v => u < v) xp) : DistStrict (xp.zip fp) := by
  rw [DistStrict, List.pairwise_iff_getElem]
  intro i j hi hj hij
  have hx : (xp.zip fp).length ≤ xp.length := by
    rw [List.length_zip]; exact min_le_left _ _
  rw [List.getElem_zip, List.getElem_zip]
  exact List.pairwise_iff_getElem.mp h i j (lt_of_lt_of_le hi hx)
    (lt_of_lt_of_le hj hx) hij

theorem padZero_length (w : ℕ) (s : String) :
    (padZero w s).length = (w - s.data.length) + s.data.length := by
  show (List.replicate (w - s.data.length) '0' ++ s.data).length = _
  rw [List.length_append, List.length_replicate]

theorem padZero_length_ge (w : ℕ) (s : String) : w ≤ (padZero w s).length := by
  rw [padZero_length]; omega

theorem fmtFixed_length_ge (w n : ℕ) : w + 4 ≤ (fmtFixed w n).length := by
  rw [fmtFixed, String.length_append, String.length_append]
  have h1 := padZero_length_ge w (toString (n / 1000))
  have h2 := padZero_length_ge 3 (toString (n % 1000))
  have h3 : (("." : String)).length = 1 := rfl
  omega

theorem format_laptime_some_ne (t : ℚ) : format_laptime (some t) ≠ "N/A" := by
  intro h
  have h1 : (format_laptime (some t)).length = ("N/A" : String).length := by
    rw [h]
  have h2 : (format_laptime (some t)).length =
      (toString (lap_minutes t)).length + 1 + (fmtSec (lap_seconds t)).length := by
    show (toString (lap_minutes t) ++ ":" ++ fmtSec (lap_seconds t)).length = _
    rw [String.length_append, String.length_append]
    have h4 : ((":" : String)).length = 1 := rfl
    omega
  have h3 : 6 ≤ (fmtSec (lap_seconds t)).length := by
    have := fmtFixed_length_ge 2 (Int.floor (lap_seconds t * 1000 + 1/2)).toNat
    simpa [fmtSec] using this
  have h5 : ("N/A" : String).length = 3 := rfl
  omega

theorem linspace_length (a b : ℚ) (n : ℕ) : (linspace a b n).length = n := by
  rw [linspace, List.length_map, List.length_range]

theorem linspace_getElem? (a b : ℚ) (n i : ℕ) (h : i < n) :
    (linspace a b n)[i]? = some (a + (b - a) * i / ((n : ℚ) - 1)) := by
  rw [linspace, List.getElem?_map, List.getElem?_range h]
  rfl

/-- Claim C1: for two laps whose distance ranges overlap (`dmin < dmax`),
the alignment step of `compare_fastest` produces the grid
`np.linspace(dmin, dmax, 1200)`: exactly 1200 evenly spaced strictly
increasing (hence non-decreasing) values, first element `dmin`, last
element `dmax`, consecutive difference `(dmax - dmin)/1199`; and a
successful comparison carries exactly this grid as its distance column. -/
theorem grid_overlap_1200_evenly_spaced (t1 t2 : Telemetry) (a b : ℚ)
    (ha : dmin t1 t2 = some a) (hb : dmax t1 t2 = some b) (hab : a < b) :
    alignGrid t1 t2 = linspace a b 1200 ∧
    (alignGrid t1 t2).length = 1200 ∧
    (alignGrid t1 t2).head? = some a ∧
    (alignGrid t1 t2).getLast? = some b ∧
    (∀ i : ℕ, i + 1 < 1200 →
      ∃ u v, (alignGrid t1 t2)[i]? = some u ∧
        (alignGrid t1 t2)[i + 1]? = some v ∧
        v - u = (b - a) / 1199 ∧ u < v) ∧
    (∀ c : Comparison, compare_fastest t1 t2 = Except.ok c →
      c.distance = linspace a b 1200) := by
  have hcond : leOpt (some b) (some a) = false := by
    simpa [leOpt] using not_le.mpr hab
  have hg : alignGrid t1 t2 = linspace a b 1200 := by
    simp [alignGrid, ha, hb, hcond, linspaceO]
  refine ⟨hg, ?_, ?_, ?_, ?_, ?_⟩
  · rw [hg, linspace_length]
  · rw [hg, List.head?_eq_getElem?, linspace_getElem? a b 1200 0 (by norm_num)]
    norm_num
  · rw [hg, List.getLast?_eq_getElem?, linspace_length]
    show (linspace a b 1200)[1199]? = some b
    rw [linspace_getElem? a b 1200 1199 (by norm_num)]
    congr 1
    push_cast
    ring_nf
  · intro i hi
    refine ⟨a + (b - a) * i / ((1200 : ℚ) - 1),
      a + (b - a) * (i + 1 : ℕ) / ((1200 : ℚ) - 1), ?_, ?_, ?_, ?_⟩
    · rw [hg, linspace_getElem? a b 1200 i (by omega)]
      norm_cast
    · rw [hg, linspace_getElem? a b 1200 (i + 1) (by omega)]
      norm_cast
    · push_cast
      ring_nf
    · have hstep : (0 : ℚ) < (b - a) / 1199 := by
        exact div_pos (sub_pos.mpr hab) (by norm_num)
      have hdiff : a + (b - a) * ((i + 1 : ℕ) : ℚ) / ((1200 : ℚ) - 1) -
          (a + (b - a) * i / ((1200 : ℚ) - 1)) = (b - a) / 1199 := by
        push_cast
        ring
      linarith
  · intro c hc
    rw [compare_fastest_ok hc]
    exact hg

/-- Witness for claim C1 at concrete telemetries with overlap
`[50, 100]`. -/
theorem grid_overlap_1200_evenly_spaced_witness :
    alignGrid ⟨[0, 100], [10, 20], none⟩ ⟨[50, 150], [30, 40], none⟩ =
      linspace 50 100 1200 :=
  (grid_overlap_1200_evenly_spaced ⟨[0, 100], [10, 20], none⟩
    ⟨[50, 150], [30, 40], none⟩ 50 100 (by decide) (by decide) (by decide)).1

/-- Claim C2: when the distance ranges do not overlap (`dmax <= dmin`,
the condition of src/app.py line 42), `compare_fastest` does not raise:
the grid is exactly the raw distance array of lap A, in its original
order, and the speed of lap B is still interpolated against that grid. -/
theorem no_overlap_fallback_grid (t1 t2 : Telemetry)
    (h1 : t1.distances ≠ []) (h2 : t2.distances ≠ [])
    (hl1 : t1.speeds.length = t1.distances.length)
    (hl2 : t2.speeds.length = t2.distances.length)
    (hno : leOpt (dmax t1 t2) (dmin t1 t2) = true) :
    compare_fastest t1 t2 = Except.ok
      ⟨t1.distances,
       t1.distances.map (fun q => interp q (t1.distances.zip t1.speeds)),
       t1.distances.map (fun q => interp q (t2.distances.zip t2.speeds))⟩ := by
  have hg : alignGrid t1 t2 = t1.distances := by
    simp [alignGrid, hno]
  rw [compare_fastest, hg, np_interp_ok_of _ _ _ h1 hl1,
    np_interp_ok_of _ _ _ h2 hl2]

/-- Witness for claim C2: the two spec laps `[0, 100]` and `[200, 300]`
have no overlap, and the grid degrades to the distances of lap A. -/
theorem no_overlap_fallback_grid_witness :
    compare_fastest ⟨[0, 100], [200, 210], none⟩ ⟨[200, 300], [190, 215], none⟩ =
      Except.ok
        ⟨[0, 100],
         [0, 100].map (fun q => interp q ([(0 : ℚ), 100].zip [200, 210])),
         [0, 100].map (fun q => interp q ([(200 : ℚ), 300].zip [190, 215]))⟩ :=
  no_overlap_fallback_grid ⟨[0, 100], [200, 210], none⟩
    ⟨[200, 300], [190, 215], none⟩ (by decide) (by decide) rfl rfl (by decide)

/-- Claim C3: the speed columns of a successful Comparison are the
`np.interp` linear interpolant of the (distance, speed) samples of each
lap evaluated at every grid point, and that interpolant clamps: below
the minimum distance it returns the first speed, above the maximum
distance the last speed, and strictly between two consecutive sample
distances the linearly weighted value of the two neighbouring speeds. -/
theorem comparison_speeds_linear_interpolation_clamped
    (pts : List (ℚ × ℚ)) (hs : DistSorted pts) (hne : pts ≠ []) (x : ℚ) :
    (x < (pts.head hne).1 → interp x pts = (pts.head hne).2) ∧
    ((pts.getLast hne).1 < x → interp x pts = (pts.getLast hne).2) ∧
    (∀ i : ℕ, ∀ hi : i + 1 < pts.length, pts[i].1 < x → x < pts[i + 1].1 →
      interp x pts =
        (pts[i + 1].2 - pts[i].2) / (pts[i + 1].1 - pts[i].1) *
          (x - pts[i].1) + pts[i].2) ∧
    (∀ t1 t2 : Telemetry, ∀ c : Comparison,
      compare_fastest t1 t2 = Except.ok c →
      c.speed1 = (alignGrid t1 t2).map
        (fun q => interp q (t1.distances.zip t1.speeds)) ∧
      c.speed2 = (alignGrid t1 t2).map
        (fun q => interp q (t2.distances.zip t2.speeds))) := by
  refine ⟨?_, ?_, ?_, ?_⟩
  · intro hx
    cases pts with
    | nil => exact absurd rfl hne
    | cons p tl =>
      simpa [List.head_cons] using
        interp_head_lt p tl x (by simpa [List.head_cons] using hx)
  · exact fun hx => interp_right_clamp pts hs hne x hx
  · intro i hi hl hr
    exact interp_segment pts hs i hi x hl hr
  · intro t1 t2 c hc
    rw [compare_fastest_ok hc]
    exact ⟨rfl, rfl⟩

/-- Witness for claim C3: on the sorted sample list
`[(0, 200), (50, 210), (100, 220)]`, a query left of the domain clamps
to 200, a query right of the domain clamps to 220, and the interior
query 25 takes the linearly weighted value. -/
theorem comparison_speeds_linear_interpolation_clamped_witness :
    interp (-5) [((0 : ℚ), (200 : ℚ)), (50, 210), (100, 220)] = 200 ∧
    interp 120 [((0 : ℚ), (200 : ℚ)), (50, 210), (100, 220)] = 220 ∧
    interp 25 [((0 : ℚ), (200 : ℚ)), (50, 210), (100, 220)] =
      (210 - 200) / (50 - 0) * (25 - 0) + 200 := by
  refine ⟨?_, ?_, ?_⟩
  · exact (comparison_speeds_linear_interpolation_clamped
      [((0 : ℚ), (200 : ℚ)), (50, 210), (100, 220)] (by decide) (by decide)
      (-5)).1 (by decide)
  · exact (comparison_speeds_linear_interpolation_clamped
      [((0 : ℚ), (200 : ℚ)), (50, 210), (100, 220)] (by decide) (by decide)
      120).2.1 (by decide)
  · exact (comparison_speeds_linear_interpolation_clamped
      [((0 : ℚ), (200 : ℚ)), (50, 210), (100, 220)] (by decide) (by decide)
      25).2.2.1 0 (by decide) (by decide) (by decide)

/-- Claim C4: whenever both telemetries carry a `SessionTime` column,
the delta-time curve is `np.interp` of the session times of each lap
onto the shared grid followed by the pointwise difference
`sessionTimeA[i] - sessionTimeB[i]`; when either column is absent no
delta-time curve is computed. -/
theorem delta_time_interpolated_difference (t1 t2 : Telemetry)
    (grid : List ℚ) :
    (∀ st1 st2 : List ℚ, t1.sessionTimes = some st1 →
      t2.sessionTimes = some st2 →
      st1.length = t1.distances.length → st2.length = t2.distances.length →
      t1.distances ≠ [] → t2.distances ≠ [] →
      delta_time t1 t2 grid = some (Except.ok (grid.map (fun x =>
        interp x (t1.distances.zip st1) - interp x (t2.distances.zip st2))))) ∧
    ((t1.sessionTimes = none ∨ t2.sessionTimes = none) →
      delta_time t1 t2 grid = none) := by
  constructor
  · intro st1 st2 h1 h2 hL1 hL2 hn1 hn2
    simp only [delta_time, h1, h2]
    rw [np_interp_ok_of _ _ _ hn1 hL1, np_interp_ok_of _ _ _ hn2 hL2]
    simp only [zipWith_sub_map]
  · intro h
    rcases h with h | h
    · simp [delta_time, h]
    · cases ht : t1.sessionTimes with
      | none => simp [delta_time, ht]
      | some st1 => simp [delta_time, ht, h]

/-- Witness for claim C4 at concrete two-sample telemetries with
session times present and, on the other side, absent. -/
theorem delta_time_interpolated_difference_witness :
    delta_time ⟨[0, 100], [5, 6], some [1, 2]⟩ ⟨[0, 100], [7, 8], some [3, 4]⟩
        [0, 50, 100] =
      some (Except.ok ([0, 50, 100].map (fun x =>
        interp x ([(0 : ℚ), 100].zip [1, 2]) -
          interp x ([(0 : ℚ), 100].zip [3, 4])))) ∧
    delta_time ⟨[0, 100], [5, 6], none⟩ ⟨[0, 100], [7, 8], some [3, 4]⟩
        [0, 50, 100] = none := by
  constructor
  · exact (delta_time_interpolated_difference ⟨[0, 100], [5, 6], some [1, 2]⟩
      ⟨[0, 100], [7, 8], some [3, 4]⟩ [0, 50, 100]).1 [1, 2] [3, 4] rfl rfl
      rfl rfl (by decide) (by decide)
  · exact (delta_time_interpolated_difference ⟨[0, 100], [5, 6], none⟩
      ⟨[0, 100], [7, 8], some [3, 4]⟩ [0, 50, 100]).2 (Or.inl rfl)

/-- Claim C5: for two laps that both have a valid lap time the scalar
lap-time delta is their difference in seconds, and in particular
`80.500 - 79.800 = +0.700`. -/
theorem lap_time_delta_subtraction :
    (∀ a b : ℚ, delta_seconds (some a) (some b) = some (a - b)) ∧
    delta_seconds (some (161 / 2)) (some (399 / 5)) = some (7 / 10) := by
  refine ⟨fun a b => rfl, by norm_num [delta_seconds]⟩

/-- Claim C6 fails on the code: with the lap time of driver A absent and
driver B at 79.8 s, the NaN scalar delta is passed straight into the
numeric `%+.3f` formatting of the KPI string, which renders it as
`+nans` — the NaN is treated as a number, not reported as unavailable. -/
theorem missing_laptime_nan_formatted_counterexample :
    delta_seconds none (some (399 / 5)) = none ∧
    delta_str none (some (399 / 5)) = "+nans" ∧
    delta_str none (some (399 / 5)) ≠ "N/A" := by
  refine ⟨rfl, by decide, by decide⟩

/-- Claim C6 (amended): if either lap time is absent, the scalar delta
is NaN (the pandas marker of absence) — the computation does not raise
and does not substitute zero — but the NaN is then passed through the
numeric formatting, so the KPI string is `+nans` rather than an
unavailability marker. -/
theorem missing_laptime_delta_nan_amended :
    (∀ l1 l2 : Option ℚ, l1 = none ∨ l2 = none →
      delta_seconds l1 l2 = none ∧ delta_str l1 l2 = "+nans") ∧
    (∀ l2 : Option ℚ, delta_seconds none l2 ≠ some 0) := by
  constructor
  · intro l1 l2 h
    have hd : delta_seconds l1 l2 = none := by
      rcases h with h | h
      · subst h; cases l2 <;> rfl
      · subst h; cases l1 <;> rfl
    refine ⟨hd, ?_⟩
    rw [delta_str, hd]
    decide
  · intro l2 h
    cases l2 <;> exact Option.noConfusion h

/-- Witness for the amended claim C6 at two concrete inputs. -/
theorem missing_laptime_delta_nan_amended_witness :
    (delta_seconds (some 80) none = none ∧
      delta_str (some 80) none = "+nans") ∧
    delta_seconds none (some 5) ≠ some 0 :=
  ⟨missing_laptime_delta_nan_amended.1 (some 80) none (Or.inr rfl),
   missing_laptime_delta_nan_amended.2 (some 5)⟩

/-- Claim C7 fails on the code: with an empty telemetry for driver A,
`compare_fastest` does not fail fast with an empty-lap-data error before
alignment; it computes the degenerate grid and then numpy raises the
generic `ValueError: array of sample points is empty` inside the
interpolation call of line 47. -/
theorem empty_lap_error_counterexample :
    compare_fastest ⟨[], [], none⟩ ⟨[0, 100], [200, 210], none⟩ =
      Except.error "array of sample points is empty" := by
  decide

/-- Claim C7 (amended): if either telemetry is empty, `compare_fastest`
raises — it never returns a Comparison — but the error is numpy's
`array of sample points is empty` ValueError thrown by the `np.interp`
call, after the grid has already been formed, not an empty-lap-data
error before alignment. -/
theorem empty_lap_errors_at_interpolation (t1 t2 : Telemetry)
    (hl1 : t1.speeds.length = t1.distances.length)
    (h : t1.distances = [] ∨ t2.distances = []) :
    compare_fastest t1 t2 = Except.error "array of sample points is empty" ∧
    ∀ c : Comparison, compare_fastest t1 t2 ≠ Except.ok c := by
  have he := compare_fastest_error_of_empty t1 t2 hl1 h
  refine ⟨he, fun c hc => ?_⟩
  rw [he] at hc
  exact Except.noConfusion hc

/-- Witness for the amended claim C7 with the empty telemetry on the
side of driver B. -/
theorem empty_lap_errors_at_interpolation_witness :
    compare_fastest ⟨[300, 400], [5, 6], none⟩ ⟨[], [], none⟩ =
      Except.error "array of sample points is empty" :=
  (empty_lap_errors_at_interpolation ⟨[300, 400], [5, 6], none⟩
    ⟨[], [], none⟩ rfl (Or.inr rfl)).1

/-- Claim C8 fails on the code for duplicate distances: interpolating
the lap with samples `(0,10), (1,20), (1,30)` onto its own distances
yields `[10, 30, 30]`, not the original speeds `[10, 20, 30]` — at a
duplicated distance `np.interp` returns the speed of the last duplicate,
which is off by 10, far beyond any floating-point tolerance. -/
theorem interp_idempotence_duplicates_counterexample :
    np_interp [0, 1, 1] [0, 1, 1] [10, 20, 30] = Except.ok [10, 30, 30] ∧
    np_interp [0, 1, 1] [0, 1, 1] [10, 20, 30] ≠ Except.ok [10, 20, 30] := by
  exact ⟨by decide, by decide⟩

/-- Claim C8 (amended): for a lap whose distance values are strictly
increasing (no duplicates), interpolating its own speed telemetry onto
its own native distance values reproduces the original speed values
exactly. -/
theorem interp_idempotence_strict_amended (xp fp : List ℚ)
    (hlen : fp.length = xp.length) (hne : xp ≠ [])
    (hstrict : List.Pairwise (fun u v : ℚ => u < v) xp) :
    np_interp xp xp fp = Except.ok fp := by
  rw [np_interp_ok_of xp xp fp hne hlen]
  congr 1
  have hzs : DistStrict (xp.zip fp) := distStrict_zip xp fp hstrict
  apply List.ext_getElem
  · rw [List.length_map]; exact hlen.symm
  · intro n h1 h2
    simp only [List.getElem_map]
    have hz : n < (xp.zip fp).length := by
      rw [List.length_zip, hlen]
      simpa using h1
    have hx : xp[n] = ((xp.zip fp)[n]).1 := by rw [List.getElem_zip]
    have hf : fp[n] = ((xp.zip fp)[n]).2 := by rw [List.getElem_zip]
    rw [hx, hf]
    exact interp_at_sample (xp.zip fp) hzs n hz

/-- Witness for the amended claim C8 on the three-sample spec lap. -/
theorem interp_idempotence_strict_amended_witness :
    np_interp [0, 50, 100] [0, 50, 100] [200, 210, 220] =
      Except.ok [200, 210, 220] :=
  interp_idempotence_strict_amended [0, 50, 100] [200, 210, 220] rfl
    (by decide) (by decide)

theorem format_laptime_eval (t : ℚ) (m : ℤ) (s : ℚ) (n : ℕ)
    (hm : lap_minutes t = m) (hs : lap_seconds t = s)
    (hn : (Int.floor (s * 1000 + 1 / 2)).toNat = n) :
    format_laptime (some t) = toString m ++ ":" ++ fmtFixed 2 n := by
  show toString (lap_minutes t) ++ ":" ++ fmtSec (lap_seconds t) = _
  rw [hm, hs, fmtSec, hn]

/-- Claim C9: `format_laptime` returns `"N/A"` exactly for an absent
lap time; a valid duration formats as minutes, a colon, and the seconds
remainder zero-padded to two integral digits with three decimals —
`83.456 s` formats as `"1:23.456"`. -/
theorem format_laptime_spec :
    format_laptime none = "N/A" ∧
    (∀ t : ℚ, format_laptime (some t) ≠ "N/A") ∧
    format_laptime (some (10432 / 125)) = "1:23.456" := by
  refine ⟨rfl, format_laptime_some_ne, ?_⟩
  have hm : lap_minutes (10432 / 125 : ℚ) = 1 := by
    rw [lap_minutes]; norm_num
  have hs : lap_seconds (10432 / 125 : ℚ) = 2932 / 125 := by
    rw [lap_seconds, lap_minutes]; norm_num
  have hn : (Int.floor ((2932 / 125 : ℚ) * 1000 + 1 / 2)).toNat = 23456 := by
    have hfl : Int.floor ((2932 / 125 : ℚ) * 1000 + 1 / 2) = 23456 := by norm_num
    rw [hfl]
    rfl
  rw [format_laptime_eval _ _ _ _ hm hs hn]
  decide

/-- Witness for claim C9: a present lap time never formats as `"N/A"`. -/
theorem format_laptime_spec_witness : format_laptime (some 5) ≠ "N/A" :=
  format_laptime_spec.2.1 5

/-- Claim C10: for a negative duration the minutes component is the
floor division (negative, absorbing the sign and over-counting by one)
while the seconds remainder stays in `[0, 60)`, so `-0.7 s` formats as
`"-1:59.300"` — not `"-0:00.700"` — and `-61.5 s` as `"-2:58.500"`. -/
theorem format_laptime_negative_floor_mod :
    (∀ t : ℚ, t < 0 →
      lap_minutes t < 0 ∧ 0 ≤ lap_seconds t ∧ lap_seconds t < 60) ∧
    format_laptime (some (-7 / 10)) = "-1:59.300" ∧
    format_laptime (some (-7 / 10)) ≠ "-0:00.700" ∧
    format_laptime (some (-123 / 2)) = "-2:58.500" := by
  have hm1 : lap_minutes (-7 / 10 : ℚ) = -1 := by
    rw [lap_minutes]; norm_num
  have hs1 : lap_seconds (-7 / 10 : ℚ) = 593 / 10 := by
    rw [lap_seconds, lap_minutes]; norm_num
  have hn1 : (Int.floor ((593 / 10 : ℚ) * 1000 + 1 / 2)).toNat = 59300 := by
    have hfl : Int.floor ((593 / 10 : ℚ) * 1000 + 1 / 2) = 59300 := by norm_num
    rw [hfl]
    rfl
  have h07 : format_laptime (some (-7 / 10)) = "-1:59.300" := by
    rw [format_laptime_eval _ _ _ _ hm1 hs1 hn1]
    decide
  have hm2 : lap_minutes (-123 / 2 : ℚ) = -2 := by
    rw [lap_minutes]; norm_num
  have hs2 : lap_seconds (-123 / 2 : ℚ) = 117 / 2 := by
    rw [lap_seconds, lap_minutes]; norm_num
  have hn2 : (Int.floor ((117 / 2 : ℚ) * 1000 + 1 / 2)).toNat = 58500 := by
    have hfl : Int.floor ((117 / 2 : ℚ) * 1000 + 1 / 2) = 58500 := by norm_num
    rw [hfl]
    rfl
  refine ⟨?_, h07, by rw [h07]; decide, ?_⟩
  · intro t ht
    refine ⟨?_, ?_, ?_⟩
    · rw [lap_minutes]
      refine Int.floor_lt.mpr ?_
      push_cast
      exact div_neg_of_neg_of_pos ht (by norm_num)
    · have hfr : lap_seconds t = 60 * Int.fract (t / 60) := by
        rw [lap_seconds, lap_minutes, ← Int.self_sub_floor]
        ring
      rw [hfr]
      exact mul_nonneg (by norm_num) (Int.fract_nonneg _)
    · have hfr : lap_seconds t = 60 * Int.fract (t / 60) := by
        rw [lap_seconds, lap_minutes, ← Int.self_sub_floor]
        ring
      rw [hfr]
      have := Int.fract_lt_one (t / 60)
      linarith
  · rw [format_laptime_eval _ _ _ _ hm2 hs2 hn2]
    decide

/-- Witness for claim C10 at the concrete negative duration `-0.7 s`. -/
theorem format_laptime_negative_floor_mod_witness :
    lap_minutes (-7 / 10 : ℚ) < 0 ∧ 0 ≤ lap_seconds (-7 / 10 : ℚ) ∧
      lap_seconds (-7 / 10 : ℚ) < 60 :=
  format_laptime_negative_floor_mod.1 (-7 / 10) (by norm_num)

end F1
